import Mathlib

/-!
Verification of the guest-corpus lexical retrieval tool of the
alfred-agentic-rag repository.

The repository has two retrieval variants:
  * `src/alfred_agentic_rag/smolagents_rag.py` — a `GuestInfoRetrieverTool`
    class wrapping a langchain `BM25Retriever`, with a `forward(query)` method;
  * `src/alfred_agentic_rag/llama_index_rag.py` — a function
    `get_guest_info_retirever(query)` (typo preserved from the source) wrapping
    a llama-index `BM25Retriever`.

Both build a corpus of documents from guest records (fields name, relation,
description, email) and return either the matched document texts joined by a
blank line, or the sentinel string "No relevant documents found".

The BM25 retriever itself is a third-party library, not code of this
repository; it is modelled from the specification (tokenize with case-folding
and word-splitting, score each document by term matching, rank by descending
score with ties broken by corpus insertion order, keep only documents of
positive score, cap at top k).  The repository-owned logic (document
construction, join/sentinel wrapping, the tool class with its metadata and
its `is_initialized` flag) is translated directly from the source.
-/

namespace AlfredRAG

/-- A guest record: one row of the external dataset, with the four string
fields used by both variants. -/
structure Guest where
  name : String
  relation : String
  description : String
  email : String
deriving DecidableEq, Repr

/-- A retrievable document: `text` (called `page_content` in the langchain
variant, `text` in the llama-index variant) plus the `metadata["name"]`
entry. -/
structure Document where
  text : String
  metaName : String
deriving DecidableEq, Repr

/-- Document text of the llama_index variant (llama_index_rag.py lines 17-28):
the four labelled field strings joined with a newline separator. -/
def llamaDocText (g : Guest) : String :=
  String.intercalate "\n"
    ["Name: " ++ g.name, "Relation: " ++ g.relation,
     "Description: " ++ g.description, "Email: " ++ g.email]

/-- One document of the llama_index variant. -/
def llamaDoc (g : Guest) : Document :=
  { text := llamaDocText g, metaName := g.name }

/-- Corpus builder of the llama_index variant: one document per record, in
input order. -/
def llamaDocs (gs : List Guest) : List Document :=
  gs.map llamaDoc

/-- Document text of the smolagents variant (smolagents_rag.py lines 14-25).
In the source the list literal is missing the comma between the
`"Description: ..."` and `"Email: ..."` f-strings, so Python concatenates the
two adjacent literals into a single element: the join has only three elements
and there is no newline between the description and the email. -/
def smolDocText (g : Guest) : String :=
  String.intercalate "\n"
    ["Name: " ++ g.name, "Relation: " ++ g.relation,
     "Description: " ++ g.description ++ ("Email: " ++ g.email)]

/-- One document of the smolagents variant. -/
def smolDoc (g : Guest) : Document :=
  { text := smolDocText g, metaName := g.name }

/-- Corpus builder of the smolagents variant: one document per record, in
input order. -/
def smolDocs (gs : List Guest) : List Document :=
  gs.map smolDoc

/-- Modelled from the spec: document text as the spec words it — the four
strings "Name: {name}", "Relation: {relation}", "Description: {description}",
"Email: {email}" joined, in that order, with a newline separator.  Kept as a
separate definition so it can be compared with the per-variant builders. -/
def specDocText (g : Guest) : String :=
  String.intercalate "\n"
    ["Name: " ++ g.name, "Relation: " ++ g.relation,
     "Description: " ++ g.description, "Email: " ++ g.email]

/-! ### The BM25 retriever, modelled from the spec

The spec (section 4.2): "tokenize the query with the same tokenizer used at
index-build time (case-folding and simple word-splitting); score every
document ... against the query terms; rank documents by descending score,
breaking ties by original corpus insertion order (stable); take the top
`top_k`", returning only documents that "score above zero relevance".  The
exact term-weighting constants are stated to be an implementation choice; the
simplest member of the family (plain term-frequency sum) is used, for which
"score zero" coincides exactly with "no matching term", as the spec demands. -/

/-- Case-folding and word-splitting tokenizer over a list of characters:
maximal runs of alphanumeric characters, lower-cased.  `cur` is the current
word accumulated in reverse. -/
def splitWordsAux : List Char → List Char → List String
  | [], cur => if cur.isEmpty then [] else [String.mk cur.reverse]
  | c :: rest, cur =>
    if c.isAlphanum then splitWordsAux rest (c.toLower :: cur)
    else if cur.isEmpty then splitWordsAux rest []
    else String.mk cur.reverse :: splitWordsAux rest []

/-- Modelled from the spec: the tokenizer used both at index-build time and at
query time (case-folding, simple word-splitting). -/
def tokenize (s : String) : List String :=
  splitWordsAux s.data []

/-- Number of occurrences of token `t` in the token list `ts`. -/
def tokenCount (t : String) (ts : List String) : Nat :=
  ts.countP (fun x => x == t)

/-- Modelled from the spec: lexical relevance score of a document text against
the query tokens — the total number of occurrences of query terms among the
document's terms.  Zero exactly when the document has no matching term. -/
def score (qt : List String) (text : String) : Nat :=
  (qt.map (fun t => tokenCount t (tokenize text))).sum

/-- A scored corpus entry: original corpus index, relevance score, document. -/
structure Scored where
  idx : Nat
  sc : Nat
  doc : Document
deriving DecidableEq, Repr

/-- Ranking order: higher score first, ties broken by smaller (earlier) corpus
index — the spec's "descending score, ties by original insertion order". -/
def rankR (a b : Scored) : Prop :=
  b.sc < a.sc ∨ (a.sc = b.sc ∧ a.idx ≤ b.idx)

instance : DecidableRel rankR :=
  fun a b => inferInstanceAs (Decidable (b.sc < a.sc ∨ (a.sc = b.sc ∧ a.idx ≤ b.idx)))

instance : IsTrans Scored rankR where
  trans a b c hab hbc := by
    rcases hab with h1 | ⟨h1, h1i⟩ <;> rcases hbc with h2 | ⟨h2, h2i⟩
    · exact Or.inl (lt_trans h2 h1)
    · exact Or.inl (h2 ▸ h1)
    · exact Or.inl (h1 ▸ h2)
    · exact Or.inr ⟨h1.trans h2, le_trans h1i h2i⟩

instance : IsTotal Scored rankR where
  total a b := by
    rcases Nat.lt_trichotomy a.sc b.sc with h | h | h
    · exact Or.inr (Or.inl h)
    · rcases Nat.le_total a.idx b.idx with hi | hi
      · exact Or.inl (Or.inr ⟨h, hi⟩)
      · exact Or.inr (Or.inr ⟨h.symm, hi⟩)
    · exact Or.inl (Or.inl h)

/-- Pair every document with its corpus index (starting at `i`) and its score
against the query tokens. -/
def scoreIndexed (qt : List String) : Nat → List Document → List Scored
  | _, [] => []
  | i, d :: ds => ⟨i, score qt d.text, d⟩ :: scoreIndexed qt (i + 1) ds

/-- The positively scoring corpus entries, in corpus order. -/
def posScored (docs : List Document) (q : String) : List Scored :=
  (scoreIndexed (tokenize q) 0 docs).filter (fun s => decide (0 < s.sc))

/-- The positively scoring entries ranked by descending score, ties by corpus
order. -/
def rankedScored (docs : List Document) (q : String) : List Scored :=
  List.insertionSort rankR (posScored docs q)

/-- Modelled from the spec: the retriever's ranked result list — every
document with at least one matching query term, best score first. -/
def rankedMatches (docs : List Document) (q : String) : List Document :=
  (rankedScored docs q).map Scored.doc

/-- The spec-level retrieval contract `retrieve(query, top_k)`: take the top
`k` ranked matches; join their texts with a blank line, or return the sentinel
when there is no match. -/
def retrieve (docs : List Document) (q : String) (k : Nat) : String :=
  let results := (rankedMatches docs q).take k
  if results.isEmpty then "No relevant documents found"
  else String.intercalate "\n\n" (results.map Document.text)

/-! ### The smolagents tool (smolagents_rag.py lines 27-50) -/

/-- State of the `GuestInfoRetrieverTool` class: the `is_initialized` flag set
in `__init__` and the BM25 retriever, whose state is the indexed corpus. -/
structure GuestInfoRetrieverTool where
  is_initialized : Bool
  retriever : List Document
deriving DecidableEq, Repr

/-- The class attribute `description` (smolagents_rag.py line 29), published
to the orchestrator. -/
def GuestInfoRetrieverTool.description : String :=
  "Retrieves information about a guest by name or relation"

/-- The constructor `__init__(self, docs)` (lines 38-41): sets
`is_initialized = False` and builds the retriever from the documents. -/
def GuestInfoRetrieverTool.init (docs : List Document) : GuestInfoRetrieverTool :=
  { is_initialized := false, retriever := docs }

/-- The method `forward(self, query)` (lines 42-47): invoke the retriever; if
the result list is non-empty, join the page contents of its first three
entries with a blank line, else return the sentinel. -/
def GuestInfoRetrieverTool.forward (t : GuestInfoRetrieverTool) (q : String) : String :=
  let results := rankedMatches t.retriever q
  if results.isEmpty then "No relevant documents found"
  else String.intercalate "\n\n" ((results.take 3).map Document.text)

/-- State-passing form of `forward`: the method body contains no assignment,
so the tool state is returned unchanged alongside the result. -/
def GuestInfoRetrieverTool.forwardS (t : GuestInfoRetrieverTool) (q : String) :
    String × GuestInfoRetrieverTool :=
  (t.forward q, t)

/-! ### The llama_index tool (llama_index_rag.py lines 30-43) -/

/-- The function `get_guest_info_retirever(query)` (typo from the source),
parametrised by the corpus the module-level retriever was built from: invoke
the retriever; join all result texts with a blank line, or the sentinel. -/
def get_guest_info_retirever (docs : List Document) (q : String) : String :=
  let results := rankedMatches docs q
  if results.isEmpty then "No relevant documents found"
  else String.intercalate "\n\n" (results.map Document.text)

/-- The docstring of `get_guest_info_retirever`, which is the capability
description the llama-index `FunctionTool` publishes to the orchestrator. -/
def get_guest_info_retirever_doc : String :=
  "Retrieves detailed information about gala guests based on their name or relation"

/-! ### Concrete fixtures used by witnesses and counterexamples -/

/-- The guest used in the spec's exact-match scenario. -/
def adaGuest : Guest :=
  ⟨"Ada Lovelace", "aunt", "mathematician", "ada@example.com"⟩

/-- The document built from `adaGuest` by the llama_index builder. -/
def adaDoc : Document := llamaDoc adaGuest

/-- A second document, about another guest. -/
def marieDoc : Document :=
  llamaDoc ⟨"Marie Curie", "friend", "physicist", "marie@example.com"⟩

/-- A corpus of five documents, each matching the query term "gala" (the
third matches it twice, so it ranks first). -/
def gala5 : List Document :=
  [⟨"gala doc a", "a"⟩, ⟨"gala doc b", "b"⟩, ⟨"gala gala c", "c"⟩,
   ⟨"gala doc d", "d"⟩, ⟨"gala doc e", "e"⟩]

/-! ### Helper lemmas about the ranking pipeline -/

theorem mem_scoreIndexed {qt : List String} {s : Scored} :
    ∀ {i : Nat} {docs : List Document}, s ∈ scoreIndexed qt i docs →
      s.doc ∈ docs ∧ s.sc = score qt s.doc.text := by
  intro i docs
  induction docs generalizing i with
  | nil => intro h; simp [scoreIndexed] at h
  | cons d ds ih =>
    intro h
    rcases (List.mem_cons).mp h with h | h
    · subst h; exact ⟨List.mem_cons_self _ _, rfl⟩
    · rcases ih h with ⟨h1, h2⟩
      exact ⟨List.mem_cons_of_mem _ h1, h2⟩

theorem exists_scoreIndexed {qt : List String} {x : Document} :
    ∀ {docs : List Document}, x ∈ docs → ∀ i : Nat,
      ∃ s ∈ scoreIndexed qt i docs, s.doc = x ∧ s.sc = score qt x.text := by
  intro docs
  induction docs with
  | nil => intro h; simp at h
  | cons d ds ih =>
    intro h i
    rcases (List.mem_cons).mp h with h | h
    · subst h
      exact ⟨⟨i, score qt x.text, x⟩, List.mem_cons_self _ _, rfl, rfl⟩
    · rcases ih h (i + 1) with ⟨s, hs, h1, h2⟩
      exact ⟨s, List.mem_cons_of_mem _ hs, h1, h2⟩

theorem posScored_eq_nil_iff {docs : List Document} {q : String} :
    posScored docs q = [] ↔ ∀ x ∈ docs, score (tokenize q) x.text = 0 := by
  unfold posScored
  rw [List.filter_eq_nil_iff]
  constructor
  · intro h x hx
    rcases @exists_scoreIndexed (tokenize q) x docs hx 0 with ⟨s, hs, hdoc, hsc⟩
    have h2 := h s hs
    simp only [decide_eq_true_eq] at h2
    omega
  · intro h s hs
    rcases mem_scoreIndexed hs with ⟨hd, hsc⟩
    simp [hsc, h _ hd]

theorem rankedMatches_eq_nil_iff {docs : List Document} {q : String} :
    rankedMatches docs q = [] ↔ ∀ x ∈ docs, score (tokenize q) x.text = 0 := by
  unfold rankedMatches rankedScored
  rw [List.map_eq_nil_iff]
  constructor
  · intro h
    have hp : ([] : List Scored).Perm (posScored docs q) :=
      h ▸ List.perm_insertionSort rankR (posScored docs q)
    exact posScored_eq_nil_iff.mp hp.symm.eq_nil
  · intro h
    rw [posScored_eq_nil_iff.mpr h]
    rfl

theorem mem_rankedMatches {docs : List Document} {q : String} {x : Document}
    (h : x ∈ rankedMatches docs q) : x ∈ docs := by
  unfold rankedMatches rankedScored at h
  rcases List.mem_map.mp h with ⟨s, hs, rfl⟩
  have hs1 : s ∈ posScored docs q := (List.mem_insertionSort rankR).mp hs
  have hs2 := (List.mem_filter.mp hs1).1
  exact (mem_scoreIndexed hs2).1

theorem take_ne_nil_of_ne_nil {α : Type} {l : List α} {k : Nat}
    (h : l ≠ []) (hk : 0 < k) : l.take k ≠ [] := by
  rw [Ne, List.take_eq_nil_iff]
  rintro (h1 | h1)
  · omega
  · exact h h1

theorem rankedScored_sorted (docs : List Document) (q : String) :
    List.Pairwise (fun a b => b.sc ≤ a.sc) (rankedScored docs q) := by
  have h : List.Pairwise rankR (rankedScored docs q) :=
    List.sorted_insertionSort rankR (posScored docs q)
  exact h.imp (fun hab => by
    rcases hab with h1 | ⟨h1, _⟩
    · exact Nat.le_of_lt h1
    · exact Nat.le_of_eq h1.symm)

/-! ### Claim theorems -/

/-- C1: for every query on a Ready tool, `retrieve` returns the text fields
of the matching documents joined by a blank line in ranked order when one or
more documents score above zero relevance, and returns exactly the sentinel
"No relevant documents found" when no document has any matching term (all
scores zero, or the corpus is empty). -/
theorem retrieve_contract (docs : List Document) (q : String) (k : Nat) (hk : 0 < k) :
    ((∀ d ∈ docs, score (tokenize q) d.text = 0) →
      retrieve docs q k = "No relevant documents found") ∧
    ((∃ d ∈ docs, 0 < score (tokenize q) d.text) →
      (rankedMatches docs q).take k ≠ [] ∧
      retrieve docs q k =
        String.intercalate "\n\n" (((rankedMatches docs q).take k).map Document.text)) := by
  constructor
  · intro h
    have hnil : rankedMatches docs q = [] := rankedMatches_eq_nil_iff.mpr h
    simp [retrieve, hnil]
  · rintro ⟨d, hd, hpos⟩
    have hne : rankedMatches docs q ≠ [] := by
      intro h0
      have := rankedMatches_eq_nil_iff.mp h0 d hd
      omega
    have htake := take_ne_nil_of_ne_nil hne hk
    refine ⟨htake, ?_⟩
    simp only [retrieve]
    rw [if_neg (by simpa [List.isEmpty_iff] using htake)]

/-- Witness for C1, at the spec's no-match scenario: a two-document corpus
about Ada Lovelace and Marie Curie, queried for "Nikola Tesla" with the
default cap 3. -/
theorem retrieve_contract_witness :
    0 < 3 ∧
    (((∀ d ∈ [adaDoc, marieDoc], score (tokenize "Nikola Tesla") d.text = 0) →
        retrieve [adaDoc, marieDoc] "Nikola Tesla" 3 = "No relevant documents found") ∧
     ((∃ d ∈ [adaDoc, marieDoc], 0 < score (tokenize "Nikola Tesla") d.text) →
        (rankedMatches [adaDoc, marieDoc] "Nikola Tesla").take 3 ≠ [] ∧
        retrieve [adaDoc, marieDoc] "Nikola Tesla" 3 =
          String.intercalate "\n\n"
            (((rankedMatches [adaDoc, marieDoc] "Nikola Tesla").take 3).map Document.text))) :=
  ⟨by decide, retrieve_contract [adaDoc, marieDoc] "Nikola Tesla" 3 (by decide)⟩

/-- C2 counterexample: in the smolagents variant the document text is not the
four labelled strings joined with a newline separator — the missing comma in
the source concatenates the Description and Email entries, so the claim's
"holds uniformly in every variant" fails at a concrete guest record. -/
theorem smol_doc_text_deviates :
    (smolDoc adaGuest).text ≠ specDocText adaGuest := by decide

/-- C2 amended: the llama_index variant builds the document text as the four
labelled strings joined with a newline separator and the smolagents variant
joins only three strings, the Description and Email lines being concatenated
without a newline; both variants map the metadata name to the record's name
field. -/
theorem doc_construction_amended (g : Guest) :
    (llamaDoc g).text = specDocText g ∧ (llamaDoc g).metaName = g.name ∧
    (smolDoc g).metaName = g.name ∧
    (smolDoc g).text =
      String.intercalate "\n"
        ["Name: " ++ g.name, "Relation: " ++ g.relation,
         "Description: " ++ g.description ++ ("Email: " ++ g.email)] :=
  ⟨rfl, rfl, rfl, rfl⟩

/-- C3: `retrieve` with `top_k = 3` on a corpus with at least three matching
documents returns exactly 3 document texts joined by a blank line, the ranked
list being sorted by descending relevance score. -/
theorem retrieve_top_k_cap (docs : List Document) (q : String)
    (h : 3 ≤ (rankedMatches docs q).length) :
    ((rankedMatches docs q).take 3).length = 3 ∧
    retrieve docs q 3 =
      String.intercalate "\n\n" (((rankedMatches docs q).take 3).map Document.text) ∧
    List.Pairwise (fun a b => b.sc ≤ a.sc) (rankedScored docs q) := by
  have hlen : ((rankedMatches docs q).take 3).length = 3 := by
    rw [List.length_take]
    exact Nat.min_eq_left h
  refine ⟨hlen, ?_, rankedScored_sorted docs q⟩
  have htake : (rankedMatches docs q).take 3 ≠ [] :=
    List.ne_nil_of_length_pos (by omega)
  simp only [retrieve]
  rw [if_neg (by simpa [List.isEmpty_iff] using htake)]

/-- Witness for C3, at the spec's top_k-cap scenario: a corpus of five
documents all matching the query term "gala". -/
theorem retrieve_top_k_cap_witness :
    3 ≤ (rankedMatches gala5 "gala").length ∧
    (((rankedMatches gala5 "gala").take 3).length = 3 ∧
     retrieve gala5 "gala" 3 =
       String.intercalate "\n\n" (((rankedMatches gala5 "gala").take 3).map Document.text) ∧
     List.Pairwise (fun a b => b.sc ≤ a.sc) (rankedScored gala5 "gala")) :=
  ⟨by decide, retrieve_top_k_cap gala5 "gala" (by decide)⟩

/-- C4 counterexample: the smolagents tool, freshly constructed with
`is_initialized = False` (so Uninitialized in the claim's terms), answers a
query with a complete successful result instead of failing with
`NotInitializedError` — no such error exists anywhere in the code. -/
theorem forward_succeeds_uninitialized :
    (GuestInfoRetrieverTool.init [adaDoc]).is_initialized = false ∧
    (GuestInfoRetrieverTool.init [adaDoc]).forward "Ada" =
      "Name: Ada Lovelace\nRelation: aunt\nDescription: mathematician\nEmail: ada@example.com" :=
  ⟨rfl, by decide⟩

/-- C4 amended: the constructor builds the index immediately, so a constructed
tool is the only lifecycle state; `forward` never consults the
`is_initialized` flag and always completes with a string result (the sentinel
or a blank-line join of ranked document texts), leaving the tool unchanged. -/
theorem forward_total_amended (docs : List Document) (q : String) (b : Bool) :
    ∃ s : String,
      GuestInfoRetrieverTool.forwardS ⟨b, docs⟩ q = (s, ⟨b, docs⟩) ∧
      (s = "No relevant documents found" ∨
       s = String.intercalate "\n\n" (((rankedMatches docs q).take 3).map Document.text)) := by
  refine ⟨GuestInfoRetrieverTool.forward ⟨b, docs⟩ q, rfl, ?_⟩
  by_cases hE : (rankedMatches docs q).isEmpty = true
  · exact Or.inl (by simp [GuestInfoRetrieverTool.forward, hE])
  · exact Or.inr (by simp [GuestInfoRetrieverTool.forward, hE])

/-- C5: the built corpus has the same length as the input record sequence and
the i-th document's metadata name equals the i-th record's name field, in
both variants. -/
theorem corpus_index_correspondence (gs : List Guest) (i : Nat) (h : i < gs.length) :
    (llamaDocs gs).length = gs.length ∧ (smolDocs gs).length = gs.length ∧
    ((llamaDocs gs)[i]?).map Document.metaName = some ((gs.get ⟨i, h⟩).name) ∧
    ((smolDocs gs)[i]?).map Document.metaName = some ((gs.get ⟨i, h⟩).name) := by
  refine ⟨by simp [llamaDocs], by simp [smolDocs], ?_, ?_⟩
  · simp [llamaDocs, List.getElem?_eq_getElem h, llamaDoc, List.get_eq_getElem]
  · simp [smolDocs, List.getElem?_eq_getElem h, smolDoc, List.get_eq_getElem]

/-- Witness for C5, at the one-record corpus built from `adaGuest`. -/
theorem corpus_index_correspondence_witness :
    0 < [adaGuest].length ∧
    ((llamaDocs [adaGuest]).length = [adaGuest].length ∧
     (smolDocs [adaGuest]).length = [adaGuest].length ∧
     ((llamaDocs [adaGuest])[0]?).map Document.metaName =
       some (([adaGuest].get ⟨0, by decide⟩).name) ∧
     ((smolDocs [adaGuest])[0]?).map Document.metaName =
       some (([adaGuest].get ⟨0, by decide⟩).name)) :=
  ⟨by decide, corpus_index_correspondence [adaGuest] 0 (by decide)⟩

/-- C6: building from an empty record sequence yields an empty corpus, tool
construction on an empty corpus succeeds (it is a total function here), and
every retrieval on the empty corpus — in the spec contract, the smolagents
tool, and the llama_index function — returns the sentinel string. -/
theorem empty_corpus_behaviour (q : String) (k : Nat) :
    llamaDocs [] = [] ∧ smolDocs [] = [] ∧
    retrieve [] q k = "No relevant documents found" ∧
    (GuestInfoRetrieverTool.init []).forward q = "No relevant documents found" ∧
    get_guest_info_retirever [] q = "No relevant documents found" := by
  have hrm : rankedMatches [] q = [] := by
    simp [rankedMatches, rankedScored, posScored, scoreIndexed, List.insertionSort]
  refine ⟨rfl, rfl, ?_, ?_, ?_⟩
  · simp [retrieve, hrm]
  · simp [GuestInfoRetrieverTool.forward, GuestInfoRetrieverTool.init, hrm]
  · simp [get_guest_info_retirever, hrm]

/-- C7: retrieval is idempotent and deterministic — `forward` leaves the tool
state (flag and index) unchanged, so a second call with the same query on the
resulting state returns the identical output. -/
theorem retrieve_idempotent (t : GuestInfoRetrieverTool) (q : String) :
    (t.forwardS q).2 = t ∧
    (t.forwardS q).1 = ((t.forwardS q).2.forwardS q).1 :=
  ⟨rfl, rfl⟩

/-- C8 counterexample: neither variant's published capability description is
the claimed string "Retrieves information about a guest by name or relation."
— the smolagents class attribute lacks the trailing period and the
llama_index docstring is a different sentence. -/
theorem description_mismatch :
    GuestInfoRetrieverTool.description ≠
      "Retrieves information about a guest by name or relation." ∧
    get_guest_info_retirever_doc ≠
      "Retrieves information about a guest by name or relation." :=
  ⟨by decide, by decide⟩

/-- C8 amended: the smolagents description is the claimed sentence without
the trailing period (appending "." yields exactly the claimed string), and
the llama_index variant instead publishes its docstring "Retrieves detailed
information about gala guests based on their name or relation". -/
theorem description_amended :
    GuestInfoRetrieverTool.description.push '.' =
      "Retrieves information about a guest by name or relation." ∧
    get_guest_info_retirever_doc =
      "Retrieves detailed information about gala guests based on their name or relation" :=
  ⟨by decide, rfl⟩

/-- C9: the smolagents constructor sets `is_initialized` to false; `forward`
neither changes nor reads it — the state after a call keeps the flag, and the
output is the same whatever the flag's value — so false is an invariant
preserved by every operation. -/
theorem is_initialized_invariant (docs : List Document) (q : String) (b : Bool) :
    (GuestInfoRetrieverTool.init docs).is_initialized = false ∧
    (GuestInfoRetrieverTool.forwardS ⟨b, docs⟩ q).2.is_initialized = b ∧
    GuestInfoRetrieverTool.forward ⟨b, docs⟩ q =
      GuestInfoRetrieverTool.forward ⟨false, docs⟩ q :=
  ⟨rfl, rfl, rfl⟩

/-- C10: any non-sentinel result of a retrieval is exactly a blank-line join
of text fields of documents of the corpus, in both the spec contract and the
smolagents tool. -/
theorem retrieve_output_from_corpus (docs : List Document) (q : String) (k : Nat)
    (t : GuestInfoRetrieverTool) :
    (retrieve docs q k = "No relevant documents found" ∨
      ∃ l : List Document, l ≠ [] ∧ (∀ x ∈ l, x ∈ docs) ∧
        retrieve docs q k = String.intercalate "\n\n" (l.map Document.text)) ∧
    (t.forward q = "No relevant documents found" ∨
      ∃ l : List Document, l ≠ [] ∧ (∀ x ∈ l, x ∈ t.retriever) ∧
        t.forward q = String.intercalate "\n\n" (l.map Document.text)) := by
  constructor
  · by_cases hE : ((rankedMatches docs q).take k).isEmpty = true
    · exact Or.inl (by simp [retrieve, hE])
    · refine Or.inr ⟨(rankedMatches docs q).take k, ?_, ?_, ?_⟩
      · simpa [List.isEmpty_iff] using hE
      · intro x hx
        exact mem_rankedMatches (List.mem_of_mem_take hx)
      · simp [retrieve, hE]
  · by_cases hE : (rankedMatches t.retriever q).isEmpty = true
    · exact Or.inl (by simp [GuestInfoRetrieverTool.forward, hE])
    · refine Or.inr ⟨(rankedMatches t.retriever q).take 3, ?_, ?_, ?_⟩
      · exact take_ne_nil_of_ne_nil (by simpa [List.isEmpty_iff] using hE) (by omega)
      · intro x hx
        exact mem_rankedMatches (List.mem_of_mem_take hx)
      · simp [GuestInfoRetrieverTool.forward, hE]

end AlfredRAG
